import Mathlib

/-!
Verification of the MedConnect reminder / appointment backend (`app.py`).

The development shallowly embeds the data model and the handlers that the
claims are about: the `/ask` chat pipeline (JSON decode, sentinel branch,
time validation, reminder persistence), the reminder CRUD endpoints, the
chat-history and reminder listing queries, and the appointment booking and
cancellation guards.  Python library functions that the handlers lean on
(`json.loads`, `datetime.time.fromisoformat`, `datetime.strptime` with the
`%Y-%m-%d %H:%M` format, `strftime('%I:%M %p')`) are modelled after the
CPython implementations on the fragments the handlers exercise.
-/

/-- Values produced by `json.loads`.  Numbers keep their source lexeme
(the handlers only ever test numbers for truthiness and stringify them);
objects keep their members in textual order, with duplicate keys resolved
by `jget` the way a Python dict built by the parser resolves them (last
occurrence wins). -/
inductive Json where
  | null : Json
  | bool (b : Bool) : Json
  | num (lexeme : String) : Json
  | str (s : String) : Json
  | arr (elems : List Json) : Json
  | obj (members : List (String × Json)) : Json
deriving Repr

/-- Dictionary lookup `data.get(k)`: the last binding of the key wins,
as when the parser builds a `dict` member by member. -/
def jget (kvs : List (String × Json)) (k : String) : Option Json :=
  kvs.foldl (fun acc p => if p.1 = k then some p.2 else acc) none

/-- Python truthiness of a decoded JSON value: `None`, `False`, numeric
zero, and empty strings/lists/dicts are falsy. -/
def numIsZero (lexeme : String) : Bool :=
  if lexeme = "NaN" ∨ lexeme = "Infinity" ∨ lexeme = "-Infinity" then false
  else
    let body := match lexeme.data with
      | '-' :: rest => rest
      | cs => cs
    let mantissa := body.takeWhile (fun c => c ≠ 'e' ∧ c ≠ 'E')
    mantissa.all (fun c => c = '0' ∨ c = '.')

def pyTruthy : Json → Bool
  | Json.null => false
  | Json.bool b => b
  | Json.num lexeme => !(numIsZero lexeme)
  | Json.str s => decide (s ≠ "")
  | Json.arr elems => !elems.isEmpty
  | Json.obj members => !members.isEmpty

/-- Truthiness of `data.get(k)`: a missing key gives `None`, which is falsy. -/
def optTruthy : Option Json → Bool
  | none => false
  | some j => pyTruthy j

/- Python `str()` / `repr()` of a decoded JSON value, as interpolated by
the handler's f-strings.  Containers are rendered `repr`-style with their
elements quoted; escaping inside repr-ed strings is not reproduced. -/
mutual

def pyRepr : Json → String
  | Json.null => "None"
  | Json.bool true => "True"
  | Json.bool false => "False"
  | Json.num lexeme => lexeme
  | Json.str s => "'" ++ s ++ "'"
  | Json.arr elems => "[" ++ pyReprElems elems ++ "]"
  | Json.obj members => "\x7b" ++ pyReprMembers members ++ "\x7d"

def pyReprElems : List Json → String
  | [] => ""
  | [x] => pyRepr x
  | x :: rest => pyRepr x ++ ", " ++ pyReprElems rest

def pyReprMembers : List (String × Json) → String
  | [] => ""
  | [(k, v)] => "'" ++ k ++ "': " ++ pyRepr v
  | (k, v) :: rest => "'" ++ k ++ "': " ++ pyRepr v ++ ", " ++ pyReprMembers rest

end

def pyStr : Json → String
  | Json.str s => s
  | j => pyRepr j

/-- Whitespace skipping of the `json` module (space, tab, newline, return). -/
def skipWs : List Char → List Char
  | [] => []
  | c :: rest =>
    if c = ' ' ∨ c = '\t' ∨ c = '\n' ∨ c = '\r' then skipWs rest else c :: rest

def hexVal? (c : Char) : Option Nat :=
  if '0' ≤ c ∧ c ≤ '9' then some (c.toNat - 48)
  else if 'a' ≤ c ∧ c ≤ 'f' then some (c.toNat - 87)
  else if 'A' ≤ c ∧ c ≤ 'F' then some (c.toNat - 55)
  else none

def escChar? : Char → Option Char
  | '"' => some '"'
  | '\\' => some '\\'
  | '/' => some '/'
  | 'b' => some (Char.ofNat 8)
  | 'f' => some (Char.ofNat 12)
  | 'n' => some '\n'
  | 'r' => some (Char.ofNat 13)
  | 't' => some '\t'
  | _ => none

/-- String scanner of the `json` module in strict mode, entered after the
opening quote: raw control characters are rejected, backslash escapes and
`\uXXXX` (with surrogate-pair combination) are decoded.  Returns the decoded
content and the input after the closing quote. -/
def parseJStr : Nat → List Char → Option (List Char × List Char)
  | 0, _ => none
  | _ + 1, [] => none
  | _ + 1, '"' :: rest => some ([], rest)
  | fuel + 1, '\\' :: esc =>
    match esc with
    | 'u' :: h1 :: h2 :: h3 :: h4 :: rest =>
      match hexVal? h1, hexVal? h2, hexVal? h3, hexVal? h4 with
      | some a, some b, some c, some d =>
        let u := ((a * 16 + b) * 16 + c) * 16 + d
        if 0xD800 ≤ u ∧ u ≤ 0xDBFF then
          match rest with
          | '\\' :: 'u' :: g1 :: g2 :: g3 :: g4 :: rest2 =>
            match hexVal? g1, hexVal? g2, hexVal? g3, hexVal? g4 with
            | some a2, some b2, some c2, some d2 =>
              let u2 := ((a2 * 16 + b2) * 16 + c2) * 16 + d2
              if 0xDC00 ≤ u2 ∧ u2 ≤ 0xDFFF then
                match parseJStr fuel rest2 with
                | some (content, rem) =>
                  some (Char.ofNat (0x10000 + (u - 0xD800) * 1024 + (u2 - 0xDC00)) :: content, rem)
                | none => none
              else
                match parseJStr fuel rest with
                | some (content, rem) => some (Char.ofNat u :: content, rem)
                | none => none
            | _, _, _, _ => none
          | '\\' :: 'u' :: _ => none
          | _ =>
            match parseJStr fuel rest with
            | some (content, rem) => some (Char.ofNat u :: content, rem)
            | none => none
        else
          match parseJStr fuel rest with
          | some (content, rem) => some (Char.ofNat u :: content, rem)
          | none => none
      | _, _, _, _ => none
    | c :: rest =>
      match escChar? c with
      | some decoded =>
        match parseJStr fuel rest with
        | some (content, rem) => some (decoded :: content, rem)
        | none => none
      | none => none
    | [] => none
  | fuel + 1, c :: rest =>
    if c.toNat < 0x20 then none
    else
      match parseJStr fuel rest with
      | some (content, rem) => some (c :: content, rem)
      | none => none

def spanDigits : List Char → List Char × List Char
  | [] => ([], [])
  | c :: rest =>
    if c.isDigit then
      let (ds, rem) := spanDigits rest
      (c :: ds, rem)
    else ([], c :: rest)

/-- Number scanner of the `json` module: the regular expression
`-?(0|[1-9]\d*)(\.\d+)?([eE][-+]?\d+)?` matched at the current position,
returning the lexeme. -/
def parseNumber (cs : List Char) : Option (String × List Char) :=
  let (sgn, cs1) := match cs with
    | '-' :: rest => (['-'], rest)
    | _ => (([] : List Char), cs)
  match cs1 with
  | [] => none
  | c :: rest =>
    let intPart? : Option (List Char × List Char) :=
      if c = '0' then some ([c], rest)
      else if '1' ≤ c ∧ c ≤ '9' then
        let (ds, rem) := spanDigits rest
        some (c :: ds, rem)
      else none
    match intPart? with
    | none => none
    | some (intPart, afterInt) =>
      let (fracPart, afterFrac) := match afterInt with
        | '.' :: rest2 =>
          let (ds, rem) := spanDigits rest2
          if ds = [] then (([] : List Char), afterInt) else ('.' :: ds, rem)
        | _ => ([], afterInt)
      let (expPart, afterExp) := match afterFrac with
        | e :: rest3 =>
          if e = 'e' ∨ e = 'E' then
            match rest3 with
            | s :: rest4 =>
              if s = '+' ∨ s = '-' then
                let (ds, rem) := spanDigits rest4
                if ds = [] then (([] : List Char), afterFrac) else (e :: s :: ds, rem)
              else
                let (ds, rem) := spanDigits rest3
                if ds = [] then (([] : List Char), afterFrac) else (e :: ds, rem)
            | [] => ([], afterFrac)
          else ([], afterFrac)
        | [] => ([], afterFrac)
      some (String.mk (sgn ++ intPart ++ fracPart ++ expPart), afterExp)

mutual

/-- Value scanner of `json.loads` (strict decoder with default hooks):
strings, objects, arrays, the three literals, numbers, and the non-standard
constants `NaN`, `Infinity` and `-Infinity`, tried in the scanner's order. -/
def parseValue : Nat → List Char → Option (Json × List Char)
  | 0, _ => none
  | fuel + 1, cs =>
    match cs with
    | '"' :: rest =>
      match parseJStr (rest.length + 1) rest with
      | some (content, rem) => some (Json.str (String.mk content), rem)
      | none => none
    | '{' :: rest => parseObjBody fuel rest
    | '[' :: rest => parseArrBody fuel rest
    | 'n' :: 'u' :: 'l' :: 'l' :: rest => some (Json.null, rest)
    | 't' :: 'r' :: 'u' :: 'e' :: rest => some (Json.bool true, rest)
    | 'f' :: 'a' :: 'l' :: 's' :: 'e' :: rest => some (Json.bool false, rest)
    | _ =>
      match parseNumber cs with
      | some (lexeme, rem) => some (Json.num lexeme, rem)
      | none =>
        match cs with
        | 'N' :: 'a' :: 'N' :: rest => some (Json.num "NaN", rest)
        | 'I' :: 'n' :: 'f' :: 'i' :: 'n' :: 'i' :: 't' :: 'y' :: rest =>
          some (Json.num "Infinity", rest)
        | '-' :: 'I' :: 'n' :: 'f' :: 'i' :: 'n' :: 'i' :: 't' :: 'y' :: rest =>
          some (Json.num "-Infinity", rest)
        | _ => none

/-- Object scanner, entered after the opening brace. -/
def parseObjBody : Nat → List Char → Option (Json × List Char)
  | 0, _ => none
  | fuel + 1, cs =>
    match skipWs cs with
    | '}' :: rest => some (Json.obj [], rest)
    | '"' :: rest =>
      match parseJStr (rest.length + 1) rest with
      | some (key, rem) =>
        match skipWs rem with
        | ':' :: rest2 =>
          match parseValue fuel (skipWs rest2) with
          | some (v, rest3) => parseMembersRest fuel [(String.mk key, v)] rest3
          | none => none
        | _ => none
      | none => none
    | _ => none

/-- After one object member: expects `,` followed by the next member, or a
closing brace. -/
def parseMembersRest : Nat → List (String × Json) → List Char → Option (Json × List Char)
  | 0, _, _ => none
  | fuel + 1, acc, cs =>
    match skipWs cs with
    | '}' :: rest => some (Json.obj acc, rest)
    | ',' :: rest =>
      match skipWs rest with
      | '"' :: rest2 =>
        match parseJStr (rest2.length + 1) rest2 with
        | some (key, rem) =>
          match skipWs rem with
          | ':' :: rest3 =>
            match parseValue fuel (skipWs rest3) with
            | some (v, rest4) => parseMembersRest fuel (acc ++ [(String.mk key, v)]) rest4
            | none => none
          | _ => none
        | none => none
      | _ => none
    | _ => none

/-- Array scanner, entered after the opening bracket. -/
def parseArrBody : Nat → List Char → Option (Json × List Char)
  | 0, _ => none
  | fuel + 1, cs =>
    match skipWs cs with
    | ']' :: rest => some (Json.arr [], rest)
    | cs1 =>
      match parseValue fuel cs1 with
      | some (v, rest) => parseElemsRest fuel [v] rest
      | none => none

/-- After one array element: expects `,` followed by the next element, or a
closing bracket. -/
def parseElemsRest : Nat → List Json → List Char → Option (Json × List Char)
  | 0, _, _ => none
  | fuel + 1, acc, cs =>
    match skipWs cs with
    | ']' :: rest => some (Json.arr acc, rest)
    | ',' :: rest =>
      match parseValue fuel (skipWs rest) with
      | some (v, rest2) => parseElemsRest fuel (acc ++ [v]) rest2
      | none => none
    | _ => none

end

/-- Model of `json.loads` on the reply string: leading whitespace, one
value, trailing whitespace, and nothing else (otherwise the decoder raises
and the handler's fallback path is taken, which the caller models as
`none`). -/
def json_loads (s : String) : Option Json :=
  match parseValue (s.data.length * 4 + 16) (skipWs s.data) with
  | some (v, rest) => if skipWs rest = [] then some v else none
  | none => none

example : json_loads "\x7b\"a\": 1, \"a\": 2\x7d" =
    some (Json.obj [("a", Json.num "1"), ("a", Json.num "2")]) := by rfl

example : json_loads "[1]" = some (Json.arr [Json.num "1"]) := by rfl

example : json_loads "hello" = none := by rfl

example : json_loads "  \"I'm\"  " = some (Json.str "I'm") := by rfl

example : jget [("a", Json.num "1"), ("a", Json.num "2")] "a" = some (Json.num "2") := by
  rfl

/-- Result of `datetime.time.fromisoformat`: the time components, and the
UTC offset in microseconds when the string carried one. -/
structure PyTime where
  hour : Nat
  minute : Nat
  second : Nat
  microsecond : Nat
  tzOffset : Option Int
deriving DecidableEq, Repr

/-- Two ASCII digits read as a number, as `int(tstr[pos:pos+2])` does on the
slices the ISO parser takes. -/
def d2 (c1 c2 : Char) : Option Nat :=
  if c1.isDigit ∧ c2.isDigit then some ((c1.toNat - 48) * 10 + (c2.toNat - 48))
  else none

def digitsVal (cs : List Char) : Nat :=
  cs.foldl (fun acc c => acc * 10 + (c.toNat - 48)) 0

/-- Fractional-second component after the dot: exactly 3 or 6 digits,
scaled to microseconds. -/
def parseFrac (cs : List Char) : Option Nat :=
  if cs.length = 3 ∧ cs.all Char.isDigit then some (digitsVal cs * 1000)
  else if cs.length = 6 ∧ cs.all Char.isDigit then some (digitsVal cs)
  else none

/-- CPython's `_parse_hh_mm_ss_ff`: `HH[:MM[:SS[.fff[fff]]]]`, each
component two digits, returning (hour, minute, second, microsecond) without
range checks. -/
def parseHMSF (cs : List Char) : Option (Nat × Nat × Nat × Nat) :=
  match cs with
  | c1 :: c2 :: rest =>
    match d2 c1 c2 with
    | none => none
    | some hh =>
      match rest with
      | [] => some (hh, 0, 0, 0)
      | ':' :: m1 :: m2 :: rest2 =>
        match d2 m1 m2 with
        | none => none
        | some mm =>
          match rest2 with
          | [] => some (hh, mm, 0, 0)
          | ':' :: s1 :: s2 :: rest3 =>
            match d2 s1 s2 with
            | none => none
            | some ss =>
              match rest3 with
              | [] => some (hh, mm, ss, 0)
              | '.' :: frac =>
                match parseFrac frac with
                | some us => some (hh, mm, ss, us)
                | none => none
              | _ => none
          | _ => none
      | _ => none
  | _ => none

/-- Index of the first occurrence of a character, mirroring `str.find`. -/
def charIdx (c : Char) : List Char → Option Nat
  | [] => none
  | x :: xs => if x = c then some 0 else (charIdx c xs).map (· + 1)

/-- The `time()` constructor's range validation. -/
def timeComponentsValid (h m s us : Nat) : Bool :=
  decide (h ≤ 23 ∧ m ≤ 59 ∧ s ≤ 59 ∧ us ≤ 999999)

/-- Timezone suffix handling of `_parse_isoformat_time`: the suffix must be
5, 8 or 15 characters, itself of the `HH:MM[:SS[.ffffff]]` shape, and the
resulting offset must be an admissible `timezone` offset (strictly less
than 24 hours in magnitude). -/
def withTz (cs : List Char) (i : Nat) (neg : Bool) : Option PyTime :=
  match parseHMSF (cs.take i) with
  | none => none
  | some (h, m, s, us) =>
    let tz := cs.drop (i + 1)
    if tz.length = 5 ∨ tz.length = 8 ∨ tz.length = 15 then
      match parseHMSF tz with
      | none => none
      | some (th, tm, ts, tus) =>
        let off : Nat := ((th * 60 + tm) * 60 + ts) * 1000000 + tus
        if off ≤ 24 * 3600 * 1000000 - 1 then
          if timeComponentsValid h m s us then
            some ⟨h, m, s, us, some (if neg then -(off : Int) else (off : Int))⟩
          else none
        else none
    else none

/-- Model of `datetime.time.fromisoformat` (the CPython pure-Python parser):
strings of at least two characters of the shape
`HH[:MM[:SS[.fff[fff]]]][±HH:MM[:SS[.ffffff]]]`, with the timezone suffix
split at the first `-`, else the first `+`, and the `time()` constructor's
range checks applied.  The accepted language strictly contains the valid
24-hour `HH:MM` strings. -/
def time_fromisoformat (s : String) : Option PyTime :=
  let cs := s.data
  if cs.length < 2 then none
  else
    match charIdx '-' cs with
    | some i => withTz cs i true
    | none =>
      match charIdx '+' cs with
      | some i => withTz cs i false
      | none =>
        match parseHMSF cs with
        | none => none
        | some (h, m, s2, us) =>
          if timeComponentsValid h m s2 us then some ⟨h, m, s2, us, none⟩ else none

example : time_fromisoformat "08:00" = some ⟨8, 0, 0, 0, none⟩ := by rfl

example : time_fromisoformat "08:00:00" = some ⟨8, 0, 0, 0, none⟩ := by rfl

example : time_fromisoformat "20:30" = some ⟨20, 30, 0, 0, none⟩ := by rfl

example : time_fromisoformat "8pm" = none := by rfl

example : time_fromisoformat "8:00" = none := by rfl

example : time_fromisoformat "24:00" = none := by rfl

example : time_fromisoformat "08:60" = none := by rfl

example : time_fromisoformat "" = none := by rfl

example : time_fromisoformat "07" = some ⟨7, 0, 0, 0, none⟩ := by rfl

example : time_fromisoformat "08:00:00.123456" = some ⟨8, 0, 0, 123456, none⟩ := by rfl

example : time_fromisoformat "08:00+05:30" =
    some ⟨8, 0, 0, 0, some (19800000000 : Int)⟩ := by rfl

/-- Zero-padding to two digits, as the numeric `strftime` directives do. -/
def pad2 (n : Nat) : String :=
  if n < 10 then "0" ++ toString n else toString n

/-- The hour rendered by `%I`: 12-hour clock, 01 to 12. -/
def hour12 (h : Nat) : Nat :=
  if h % 12 = 0 then 12 else h % 12

/-- Model of `time.strftime('%I:%M %p')`, used both for the reminder
confirmation sentence and for `Reminder.to_dict`. -/
def strftime12 (t : PyTime) : String :=
  pad2 (hour12 t.hour) ++ ":" ++ pad2 t.minute ++ " " ++ (if t.hour < 12 then "AM" else "PM")

example : strftime12 ⟨8, 0, 0, 0, none⟩ = "08:00 AM" := by rfl

example : strftime12 ⟨20, 30, 0, 0, none⟩ = "08:30 PM" := by rfl

example : strftime12 ⟨0, 5, 0, 0, none⟩ = "12:05 AM" := by rfl

example : strftime12 ⟨12, 0, 0, 0, none⟩ = "12:00 PM" := by rfl

/-- Fallback reply of `get_openrouter_response` when the outbound AI call
raises. -/
def troubleConnectingMsg : String :=
  "I'm sorry, I'm having trouble connecting to my brain right now. Please try again in a moment."

/-- Reply of the `/ask` handler when the sentinel object is missing the
medicine or the time. -/
def missingDetailsMsg : String :=
  "I'm sorry, I missed some of those details. Could you please provide the medicine name and time again?"

/-- Reply of the `/ask` handler when `time.fromisoformat` raises
`ValueError` on the extracted time string. -/
def timeClarMsg (timeStr : String) : String :=
  "I'm sorry, I couldn't understand the time '" ++ timeStr ++
    "'. Please provide it in 24-hour HH:MM format (e.g., 08:00 for 8 AM or 20:00 for 8 PM)."

/-- Reply of the `/ask` handler's blanket `except Exception` around the
reminder creation. -/
def troubleSavingMsg : String :=
  "I'm sorry, I had trouble saving that reminder. Please try again or use the manual form on the 'Reminders' page."

/-- Confirmation reply synthesized after a reminder is created through
chat: `f"OK, I've set a reminder for {med_name}{dosage_text} at {time_friendly}. ..."`. -/
def confirmMsg (med : Json) (dosage : Option Json) (t : PyTime) : String :=
  "OK, I've set a reminder for " ++ pyStr med ++
    (match dosage with
      | some d => if pyTruthy d then " (" ++ pyStr d ++ ")" else ""
      | none => "") ++
    " at " ++ strftime12 t ++ ". You can see all your reminders on the 'Reminders' page."

/-- Payload of a reminder the chat pipeline persists (`Reminder(...)` in
`ask`; the primary key is assigned by the database and the owner is the
session user, so neither is part of the payload). -/
structure NewReminder where
  medicine : Json
  dosage : Option Json
  rtime : PyTime
deriving Repr

/-- Outcome of the decode/validate/branch step of `/ask` on the AI reply:
either an ordinary response (with the reminder it persisted, when it did),
or an exception escaping the handler. -/
inductive AskResult where
  | ok (reminder : Option NewReminder) (response : String) : AskResult
  | raised : AskResult
deriving Repr

/-- The sentinel branch of `/ask` (lines 507-538 of `app.py`), entered when
the decoded reply is a dict whose `action` is `create_reminder`.  The falsy
check on medicine/time comes first; a non-string truthy time makes
`time.fromisoformat` raise `TypeError`, which the blanket
`except Exception` (not the `except ValueError`) turns into the
trouble-saving apology. -/
def askCreate (kvs : List (String × Json)) : AskResult :=
  let dosage0 := jget kvs "dosage"
  let dosage := match dosage0 with
    | some (Json.str s) => if s = "None" then none else dosage0
    | _ => dosage0
  match jget kvs "medicine", jget kvs "time" with
  | some med, some timeVal =>
    if pyTruthy med && pyTruthy timeVal then
      match timeVal with
      | Json.str timeStr =>
        match time_fromisoformat timeStr with
        | some t => AskResult.ok (some ⟨med, dosage, t⟩) (confirmMsg med dosage t)
        | none => AskResult.ok none (timeClarMsg timeStr)
      | _ => AskResult.ok none troubleSavingMsg
    else AskResult.ok none missingDetailsMsg
  | _, _ => AskResult.ok none missingDetailsMsg

/-- The decode/validate/branch step of `/ask` on the raw AI reply.  A reply
that does not decode as JSON is kept verbatim as the conversational
response (`except (json.JSONDecodeError, TypeError): pass`).  A reply that
decodes to a non-dict value hits `data.get('action')`, whose
`AttributeError` is caught by no `except` clause. -/
def askBranch (aiReply : String) : AskResult :=
  match json_loads aiReply with
  | none => AskResult.ok none aiReply
  | some (Json.obj kvs) =>
    match jget kvs "action" with
    | some (Json.str a) =>
      if a = "create_reminder" then askCreate kvs else AskResult.ok none aiReply
    | _ => AskResult.ok none aiReply
  | some _ => AskResult.raised

/-- The reminder an `/ask` outcome persisted, if any. -/
def AskResult.reminder : AskResult → Option NewReminder
  | AskResult.ok r _ => r
  | AskResult.raised => none

/-- The reminder persisted by `/ask` for a given AI reply, if any. -/
def askReminder (aiReply : String) : Option NewReminder :=
  (askBranch aiReply).reminder

example :
    askBranch "\x7b\"action\": \"create_reminder\", \"medicine\": \"Aspirin\", \"time\": \"08:00\"\x7d" =
      AskResult.ok (some ⟨Json.str "Aspirin", none, ⟨8, 0, 0, 0, none⟩⟩)
        (confirmMsg (Json.str "Aspirin") none ⟨8, 0, 0, 0, none⟩) := by rfl

example :
    askBranch "\x7b\"action\": \"create_reminder\", \"medicine\": \"Aspirin\", \"time\": \"08:00:00\"\x7d" =
      AskResult.ok (some ⟨Json.str "Aspirin", none, ⟨8, 0, 0, 0, none⟩⟩)
        (confirmMsg (Json.str "Aspirin") none ⟨8, 0, 0, 0, none⟩) := by rfl

example :
    askBranch "\x7b\"action\": \"create_reminder\", \"medicine\": \"Aspirin\", \"time\": \"8pm\"\x7d" =
      AskResult.ok none (timeClarMsg "8pm") := by rfl

example :
    askBranch "\x7b\"action\": \"create_reminder\", \"medicine\": \"Aspirin\", \"time\": 800\x7d" =
      AskResult.ok none troubleSavingMsg := by rfl

example : askBranch "[1]" = AskResult.raised := by rfl

example : askBranch "Take rest and drink fluids." =
    AskResult.ok none "Take rest and drink fluids." := by rfl

/-- A reminder row as persisted in the `reminder` table. -/
structure ReminderRow where
  id : Nat
  userId : Nat
  medicine : Json
  dosage : Option Json
  rtime : PyTime
deriving Repr

/-- Response of `/api/add_reminder`: the created row (201 with its
`to_dict`), a 400 with an error message, or the blanket 500 (which is also
what a non-dict body or a non-string time ends in, their `AttributeError` /
`TypeError` being caught by `except Exception`). -/
inductive AddResult where
  | created (r : ReminderRow) : AddResult
  | badRequest (msg : String) : AddResult
  | serverError : AddResult
deriving Repr

def requiredFieldsMsg : String := "Medicine name and time are required."

def invalidTimeFormatMsg : String := "Invalid time format. Please use HH:MM (24-hour)."

/-- The `/api/add_reminder` handler on a decoded request body, for the
session user `uid`; `nextId` is the primary key the database assigns. -/
def addReminder (uid nextId : Nat) (body : Json) : AddResult :=
  match body with
  | Json.obj kvs =>
    match jget kvs "medicine_name", jget kvs "reminder_time" with
    | some med, some timeVal =>
      if pyTruthy med && pyTruthy timeVal then
        match timeVal with
        | Json.str timeStr =>
          match time_fromisoformat timeStr with
          | some t => AddResult.created ⟨nextId, uid, med, jget kvs "dosage", t⟩
          | none => AddResult.badRequest invalidTimeFormatMsg
        | _ => AddResult.serverError
      else AddResult.badRequest requiredFieldsMsg
    | _, _ => AddResult.badRequest requiredFieldsMsg
  | _ => AddResult.serverError

example :
    addReminder 7 1 (Json.obj [("medicine_name", Json.str "Aspirin"), ("reminder_time", Json.str "08:00:00")]) =
      AddResult.created ⟨1, 7, Json.str "Aspirin", none, ⟨8, 0, 0, 0, none⟩⟩ := by rfl

example :
    addReminder 7 1 (Json.obj [("medicine_name", Json.str "Aspirin"), ("reminder_time", Json.str "late")]) =
      AddResult.badRequest invalidTimeFormatMsg := by rfl

/-- Insertion step of the model of the ORM's `ORDER BY`. -/
def insertLe (le : α → α → Bool) (x : α) : List α → List α
  | [] => [x]
  | y :: ys => if le x y then x :: y :: ys else y :: insertLe le x ys

/-- Model of an `ORDER BY` ascending on a row list: a sort by the given
comparator (`SELECT` row order beyond the sort key is unspecified; any sort
realizes the query contract). -/
def sortLe (le : α → α → Bool) (l : List α) : List α :=
  l.foldr (insertLe le) []

theorem insertLe_perm (le : α → α → Bool) (x : α) (l : List α) :
    (insertLe le x l).Perm (x :: l) := by
  induction l with
  | nil => exact List.Perm.refl _
  | cons y ys ih =>
    rw [insertLe]
    by_cases h : le x y = true
    · rw [if_pos h]
    · rw [if_neg h]
      exact (ih.cons y).trans (List.Perm.swap x y ys)

theorem sortLe_perm (le : α → α → Bool) (l : List α) : (sortLe le l).Perm l := by
  induction l with
  | nil => exact List.Perm.refl _
  | cons y ys ih =>
    exact (insertLe_perm le y (sortLe le ys)).trans (ih.cons y)

theorem mem_insertLe (le : α → α → Bool) (x : α) (l : List α) (z : α)
    (h : z ∈ insertLe le x l) : z = x ∨ z ∈ l := by
  have h2 : z ∈ x :: l := (insertLe_perm le x l).mem_iff.mp h
  simpa using h2

theorem insertLe_pairwise (le : α → α → Bool)
    (htot : ∀ a b, le a b = true ∨ le b a = true)
    (htrans : ∀ a b c, le a b = true → le b c = true → le a c = true)
    (x : α) (l : List α) (h : l.Pairwise (fun a b => le a b = true)) :
    (insertLe le x l).Pairwise (fun a b => le a b = true) := by
  induction l with
  | nil => simp [insertLe]
  | cons y ys ih =>
    obtain ⟨hy, hys⟩ := List.pairwise_cons.mp h
    rw [insertLe]
    by_cases hxy : le x y = true
    · rw [if_pos hxy]
      refine List.Pairwise.cons ?_ (List.Pairwise.cons hy hys)
      intro z hz
      rcases List.mem_cons.mp hz with rfl | hz'
      · exact hxy
      · exact htrans x y z hxy (hy z hz')
    · rw [if_neg hxy]
      have hyx : le y x = true := (htot x y).resolve_left hxy
      refine List.Pairwise.cons ?_ (ih hys)
      intro z hz
      rcases mem_insertLe le x ys z hz with rfl | hzys
      · exact hyx
      · exact hy z hzys

theorem sortLe_pairwise (le : α → α → Bool)
    (htot : ∀ a b, le a b = true ∨ le b a = true)
    (htrans : ∀ a b c, le a b = true → le b c = true → le a c = true)
    (l : List α) : (sortLe le l).Pairwise (fun a b => le a b = true) := by
  induction l with
  | nil => simp [sortLe]
  | cons y ys ih => exact insertLe_pairwise le htot htrans y (sortLe le ys) ih

/-- A stored chat message (`ChatHistory` row). -/
structure ChatRow where
  role : String
  content : String
  timestamp : Nat
  userId : Nat
deriving DecidableEq, Repr

/-- The rows the `/get_history` query yields: the session user's messages,
ordered by `ChatHistory.timestamp` ascending. -/
def getHistoryRows (db : List ChatRow) (uid : Nat) : List ChatRow :=
  sortLe (fun a b => decide (a.timestamp ≤ b.timestamp))
    (db.filter (fun m => m.userId == uid))

/-- The `/get_history` response body: role and content of each row, in
query order. -/
def getHistory (db : List ChatRow) (uid : Nat) : List (String × String) :=
  (getHistoryRows db uid).map (fun m => (m.role, m.content))

/-- Comparator of the `reminder_time` column used by the
`/api/get_reminders` query's `ORDER BY`: times compare by their components
in order, as `datetime.time` values (and their stored ISO strings) do. -/
def timeLexLe (a b : PyTime) : Bool :=
  if a.hour ≠ b.hour then decide (a.hour < b.hour)
  else if a.minute ≠ b.minute then decide (a.minute < b.minute)
  else if a.second ≠ b.second then decide (a.second < b.second)
  else decide (a.microsecond ≤ b.microsecond)

theorem timeLexLe_total (a b : PyTime) : timeLexLe a b = true ∨ timeLexLe b a = true := by
  simp only [timeLexLe]
  split_ifs <;> simp_all
  all_goals omega

theorem timeLexLe_trans (a b c : PyTime) (h1 : timeLexLe a b = true)
    (h2 : timeLexLe b c = true) : timeLexLe a c = true := by
  simp only [timeLexLe] at h1 h2 ⊢
  split_ifs at h1 h2 ⊢ <;> simp_all <;> omega

/-- The rows the `/api/get_reminders` query yields: the session user's
reminders, ordered by `Reminder.reminder_time` ascending. -/
def getReminders (db : List ReminderRow) (uid : Nat) : List ReminderRow :=
  sortLe (fun a b => timeLexLe a.rtime b.rtime) (db.filter (fun r => r.userId == uid))

/-- The dictionary `Reminder.to_dict` returns (and `/api/get_reminders` and
the 201 response of `/api/add_reminder` serialize). -/
structure ReminderDict where
  id : Nat
  medicineName : Json
  dosage : Option Json
  reminderTime : String
deriving Repr

def reminderToDict (r : ReminderRow) : ReminderDict :=
  ⟨r.id, r.medicine, r.dosage, strftime12 r.rtime⟩

/-- The `/api/get_reminders` response body. -/
def getRemindersJson (db : List ReminderRow) (uid : Nat) : List ReminderDict :=
  (getReminders db uid).map reminderToDict

/-- Outcome of `/api/delete_reminder`.  A missing id raises the 404
`HTTPException` inside the `try`, where `except Exception` converts it to
the blanket 500. -/
inductive DeleteOutcome where
  | notFoundError : DeleteOutcome
  | unauthorized : DeleteOutcome
  | deleted : DeleteOutcome
deriving DecidableEq, Repr

/-- The `/api/delete_reminder/<id>` handler for the session user `uid`:
looks the row up by primary key, refuses with a 403 when it belongs to
someone else, deletes it otherwise.  Returns the outcome and the table
after the request. -/
def deleteReminder (db : List ReminderRow) (uid rid : Nat) :
    DeleteOutcome × List ReminderRow :=
  match db.find? (fun r => r.id == rid) with
  | none => (DeleteOutcome.notFoundError, db)
  | some r =>
    if r.userId ≠ uid then (DeleteOutcome.unauthorized, db)
    else (DeleteOutcome.deleted, db.eraseP (fun x => x.id == rid))

/-- Model of `get_openrouter_response`: the gateway call either yields the
reply content or raises, and a raise is replaced by the canned reply. -/
def getOpenrouterResponse (call : Except String String) : String :=
  match call with
  | Except.ok content => content
  | Except.error _ => troubleConnectingMsg

/-- A naive `datetime.datetime` value. -/
structure PyDateTime where
  year : Nat
  month : Nat
  day : Nat
  hour : Nat
  minute : Nat
  second : Nat
  microsecond : Nat
deriving DecidableEq, Repr

/-- Python's `datetime < datetime`: componentwise lexicographic order. -/
def dtLt (a b : PyDateTime) : Bool :=
  if a.year ≠ b.year then decide (a.year < b.year)
  else if a.month ≠ b.month then decide (a.month < b.month)
  else if a.day ≠ b.day then decide (a.day < b.day)
  else if a.hour ≠ b.hour then decide (a.hour < b.hour)
  else if a.minute ≠ b.minute then decide (a.minute < b.minute)
  else if a.second ≠ b.second then decide (a.second < b.second)
  else decide (a.microsecond < b.microsecond)

/-- Alternatives of `strptime`'s `%m` directive (`1[0-2]|0[1-9]|[1-9]`),
in the regex's order, each with the remaining input. -/
def mAlts : List Char → List (Nat × List Char)
  | c1 :: c2 :: rest =>
    (if c1 = '1' ∧ '0' ≤ c2 ∧ c2 ≤ '2' then [(10 + (c2.toNat - 48), rest)] else []) ++
    (if c1 = '0' ∧ '1' ≤ c2 ∧ c2 ≤ '9' then [(c2.toNat - 48, rest)] else []) ++
    (if '1' ≤ c1 ∧ c1 ≤ '9' then [(c1.toNat - 48, c2 :: rest)] else [])
  | [c1] => if '1' ≤ c1 ∧ c1 ≤ '9' then [(c1.toNat - 48, [])] else []
  | [] => []

/-- Alternatives of `%d` (`3[01]|[12]\d|0[1-9]|[1-9]`). -/
def dAlts : List Char → List (Nat × List Char)
  | c1 :: c2 :: rest =>
    (if c1 = '3' ∧ '0' ≤ c2 ∧ c2 ≤ '1' then [(30 + (c2.toNat - 48), rest)] else []) ++
    (if ('1' ≤ c1 ∧ c1 ≤ '2') ∧ c2.isDigit then
      [((c1.toNat - 48) * 10 + (c2.toNat - 48), rest)] else []) ++
    (if c1 = '0' ∧ '1' ≤ c2 ∧ c2 ≤ '9' then [(c2.toNat - 48, rest)] else []) ++
    (if '1' ≤ c1 ∧ c1 ≤ '9' then [(c1.toNat - 48, c2 :: rest)] else [])
  | [c1] => if '1' ≤ c1 ∧ c1 ≤ '9' then [(c1.toNat - 48, [])] else []
  | [] => []

/-- Alternatives of `%H` (`2[0-3]|[0-1]\d|\d`). -/
def hAlts : List Char → List (Nat × List Char)
  | c1 :: c2 :: rest =>
    (if c1 = '2' ∧ '0' ≤ c2 ∧ c2 ≤ '3' then [(20 + (c2.toNat - 48), rest)] else []) ++
    (if ('0' ≤ c1 ∧ c1 ≤ '1') ∧ c2.isDigit then
      [((c1.toNat - 48) * 10 + (c2.toNat - 48), rest)] else []) ++
    (if c1.isDigit then [(c1.toNat - 48, c2 :: rest)] else [])
  | [c1] => if c1.isDigit then [(c1.toNat - 48, [])] else []
  | [] => []

/-- Alternatives of `%M` (`[0-5]\d|\d`). -/
def minAlts : List Char → List (Nat × List Char)
  | c1 :: c2 :: rest =>
    (if ('0' ≤ c1 ∧ c1 ≤ '5') ∧ c2.isDigit then
      [((c1.toNat - 48) * 10 + (c2.toNat - 48), rest)] else []) ++
    (if c1.isDigit then [(c1.toNat - 48, c2 :: rest)] else [])
  | [c1] => if c1.isDigit then [(c1.toNat - 48, [])] else []
  | [] => []

def firstSome : List (Option α) → Option α
  | [] => none
  | some a :: _ => some a
  | none :: rest => firstSome rest

/-- Regex backtracking: try each alternative, in order, against the
continuation. -/
def tryAlts (alts : List (Nat × List Char)) (k : Nat → List Char → Option α) : Option α :=
  firstSome (alts.map (fun p => k p.1 p.2))

def isLeapYear (y : Nat) : Bool :=
  y % 4 = 0 ∧ (y % 100 ≠ 0 ∨ y % 400 = 0)

def daysInMonth (y m : Nat) : Nat :=
  if m = 2 then (if isLeapYear y then 29 else 28)
  else if m = 4 ∨ m = 6 ∨ m = 9 ∨ m = 11 then 30
  else 31

/-- The `datetime()` constructor's validation on the fields `strptime`
extracted. -/
def mkDatetime (y mo dy hr mi : Nat) : Option PyDateTime :=
  if 1 ≤ y ∧ y ≤ 9999 ∧ 1 ≤ mo ∧ mo ≤ 12 ∧ 1 ≤ dy ∧ dy ≤ daysInMonth y mo ∧
      hr ≤ 23 ∧ mi ≤ 59 then
    some ⟨y, mo, dy, hr, mi, 0, 0⟩
  else none

/-- Model of `datetime.strptime(s, '%Y-%m-%d %H:%M')`: `%Y` is exactly four
digits, the other directives follow `_strptime.TimeRE`, the whole string
must be consumed, and the extracted fields must form a valid datetime. -/
def strptimeYmdHM (cs : List Char) : Option PyDateTime :=
  match cs with
  | y1 :: y2 :: y3 :: y4 :: '-' :: rest =>
    if y1.isDigit ∧ y2.isDigit ∧ y3.isDigit ∧ y4.isDigit then
      tryAlts (mAlts rest) (fun mo r1 =>
        match r1 with
        | '-' :: r2 =>
          tryAlts (dAlts r2) (fun dy r3 =>
            match r3 with
            | ' ' :: r4 =>
              tryAlts (hAlts r4) (fun hr r5 =>
                match r5 with
                | ':' :: r6 =>
                  tryAlts (minAlts r6) (fun mi r7 =>
                    match r7 with
                    | [] => mkDatetime (digitsVal [y1, y2, y3, y4]) mo dy hr mi
                    | _ => none)
                | _ => none)
            | _ => none)
        | _ => none)
    else none
  | _ => none

example : strptimeYmdHM "2025-01-02 10:30".data = some ⟨2025, 1, 2, 10, 30, 0, 0⟩ := by rfl

example : strptimeYmdHM "2025-2-3 9:05".data = some ⟨2025, 2, 3, 9, 5, 0, 0⟩ := by rfl

example : strptimeYmdHM "2025-02-30 10:30".data = none := by rfl

example : strptimeYmdHM "2025-13-02 10:30".data = none := by rfl

example : strptimeYmdHM "2025-01-02 24:30".data = none := by rfl

example : strptimeYmdHM "02-01-2025 10:30".data = none := by rfl

/-- Outcome of a POST to `/book/<doctor_id>` with a parsable form. -/
inductive BookResult where
  | invalidFormat : BookResult
  | rejectedPast : BookResult
  | booked (dt : PyDateTime) : BookResult
deriving DecidableEq, Repr

/-- The booking branch of `book_appointment` (lines 660-679 of `app.py`):
parse `f"{date_str} {time_str}"`, reject datetimes strictly before `now`,
otherwise create the appointment. -/
def bookAppointment (now : PyDateTime) (dateStr timeStr : String) : BookResult :=
  match strptimeYmdHM (dateStr ++ " " ++ timeStr).data with
  | none => BookResult.invalidFormat
  | some dt => if dtLt dt now then BookResult.rejectedPast else BookResult.booked dt

/-- A row of the `appointment` table. -/
structure AppointmentRow where
  id : Nat
  userId : Nat
  dt : PyDateTime
deriving DecidableEq, Repr

/-- Outcome of `/cancel_appointment/<id>`. -/
inductive CancelOutcome where
  | notFoundError : CancelOutcome
  | unauthorized : CancelOutcome
  | rejectedPast : CancelOutcome
  | cancelled : CancelOutcome
deriving DecidableEq, Repr

/-- The `cancel_appointment` handler for the session user `uid`: primary
key lookup, ownership check, then the past-datetime guard; only then is the
row deleted.  Returns the outcome and the table after the request. -/
def cancelAppointment (now : PyDateTime) (db : List AppointmentRow) (uid aid : Nat) :
    CancelOutcome × List AppointmentRow :=
  match db.find? (fun a => a.id == aid) with
  | none => (CancelOutcome.notFoundError, db)
  | some a =>
    if a.userId ≠ uid then (CancelOutcome.unauthorized, db)
    else if dtLt a.dt now then (CancelOutcome.rejectedPast, db)
    else (CancelOutcome.cancelled, db.eraseP (fun x => x.id == aid))

/-- Follows the spec's words: a valid 24-hour HH:MM string — exactly five
characters, two digits, a colon, two digits, with hour at most 23 and
minute at most 59. -/
def specHHMM (s : String) : Bool :=
  match s.data with
  | [h1, h2, ':', m1, m2] =>
    h1.isDigit ∧ h2.isDigit ∧ m1.isDigit ∧ m2.isDigit ∧
      (h1.toNat - 48) * 10 + (h2.toNat - 48) ≤ 23 ∧
      (m1.toNat - 48) * 10 + (m2.toNat - 48) ≤ 59
  | _ => false

example : specHHMM "08:00" = true := by rfl

example : specHHMM "08:00:00" = false := by rfl

example : specHHMM "24:00" = false := by rfl

theorem strAppend_assoc (a b c : String) : a ++ b ++ c = a ++ (b ++ c) := by
  apply congrArg String.mk
  show (a ++ b ++ c).data = (a ++ (b ++ c)).data
  simp [String.data_append, List.append_assoc]

/-- Every `%I:%M %p` rendering ends in a space followed by AM or PM. -/
theorem strftime12_ampm (t : PyTime) :
    (∃ p, strftime12 t = p ++ " AM") ∨ (∃ p, strftime12 t = p ++ " PM") := by
  by_cases h : t.hour < 12
  · left
    refine ⟨pad2 (hour12 t.hour) ++ ":" ++ pad2 t.minute, ?_⟩
    rw [strftime12, if_pos h, strAppend_assoc]
    rfl
  · right
    refine ⟨pad2 (hour12 t.hour) ++ ":" ++ pad2 t.minute, ?_⟩
    rw [strftime12, if_neg h, strAppend_assoc]
    rfl

/-- C5: For every booking request whose appointment datetime is before the
current time, no Appointment is created and the request is rejected; and
for every cancellation request on an appointment whose datetime is before
the current time, the appointment is not deleted and the request is
rejected (with the past-guard message, or earlier with the ownership
refusal, which also leaves the table unchanged). -/
theorem appointments_past_rejected :
    (∀ (now : PyDateTime) (dateStr timeStr : String) (dt : PyDateTime),
        strptimeYmdHM (dateStr ++ " " ++ timeStr).data = some dt →
        dtLt dt now = true →
        bookAppointment now dateStr timeStr = BookResult.rejectedPast) ∧
    (∀ (now : PyDateTime) (db : List AppointmentRow) (uid aid : Nat) (a : AppointmentRow),
        db.find? (fun x => x.id == aid) = some a →
        dtLt a.dt now = true →
        (cancelAppointment now db uid aid).2 = db ∧
          ((cancelAppointment now db uid aid).1 = CancelOutcome.unauthorized ∨
            (cancelAppointment now db uid aid).1 = CancelOutcome.rejectedPast)) := by
  constructor
  · intro now dateStr timeStr dt hparse hpast
    unfold bookAppointment
    rw [hparse]
    simp [hpast]
  · intro now db uid aid a hfind hpast
    by_cases howner : a.userId = uid
    · simp [cancelAppointment, hfind, howner, hpast]
    · simp [cancelAppointment, hfind, howner, hpast]

theorem appointments_past_rejected_witness :
    bookAppointment ⟨2025, 6, 1, 0, 0, 0, 0⟩ "2025-01-02" "10:30" = BookResult.rejectedPast ∧
      ((cancelAppointment ⟨2025, 6, 1, 0, 0, 0, 0⟩ [⟨1, 7, ⟨2025, 1, 2, 10, 30, 0, 0⟩⟩] 7 1).2 =
          [⟨1, 7, ⟨2025, 1, 2, 10, 30, 0, 0⟩⟩] ∧
        ((cancelAppointment ⟨2025, 6, 1, 0, 0, 0, 0⟩ [⟨1, 7, ⟨2025, 1, 2, 10, 30, 0, 0⟩⟩] 7 1).1 =
            CancelOutcome.unauthorized ∨
          (cancelAppointment ⟨2025, 6, 1, 0, 0, 0, 0⟩ [⟨1, 7, ⟨2025, 1, 2, 10, 30, 0, 0⟩⟩] 7 1).1 =
            CancelOutcome.rejectedPast)) :=
  ⟨appointments_past_rejected.1 ⟨2025, 6, 1, 0, 0, 0, 0⟩ "2025-01-02" "10:30"
      ⟨2025, 1, 2, 10, 30, 0, 0⟩ rfl (by decide),
    appointments_past_rejected.2 ⟨2025, 6, 1, 0, 0, 0, 0⟩ [⟨1, 7, ⟨2025, 1, 2, 10, 30, 0, 0⟩⟩]
      7 1 ⟨1, 7, ⟨2025, 1, 2, 10, 30, 0, 0⟩⟩ rfl (by decide)⟩

/-- C6: For every user, the list returned by the chat history endpoint
(`/get_history`) is ordered by non-decreasing message timestamp, and the
response serializes exactly those rows in that order. -/
theorem chat_history_timestamp_sorted (db : List ChatRow) (uid : Nat) :
    (getHistoryRows db uid).Pairwise (fun a b => a.timestamp ≤ b.timestamp) ∧
      getHistory db uid = (getHistoryRows db uid).map (fun m => (m.role, m.content)) := by
  constructor
  · have h := sortLe_pairwise (fun a b : ChatRow => decide (a.timestamp ≤ b.timestamp))
      (fun a b => by
        by_cases hle : a.timestamp ≤ b.timestamp
        · exact Or.inl (by simpa using hle)
        · exact Or.inr (by simp; omega))
      (fun a b c h1 h2 => by
        simp at h1 h2 ⊢
        omega)
      (db.filter (fun m => m.userId == uid))
    exact h.imp (fun hab => by simpa using hab)
  · rfl

/-- C7: Every failure of the outbound AI-gateway call makes
`get_openrouter_response` return the canned trouble-connecting reply
instead of propagating the exception; that reply then flows through the
`/ask` branch as ordinary conversational content, so the request does not
fail because of the AI call. -/
theorem ai_failure_canned_reply (err : String) :
    getOpenrouterResponse (Except.error err) = troubleConnectingMsg ∧
      askBranch (getOpenrouterResponse (Except.error err)) =
        AskResult.ok none troubleConnectingMsg :=
  ⟨rfl, by rfl⟩

/-- C8: A `/api/delete_reminder` request naming an existing reminder owned
by a different user gets the 403 Unauthorized error and leaves the reminder
table unchanged. -/
theorem delete_reminder_unauthorized (db : List ReminderRow) (uid rid : Nat)
    (r : ReminderRow) (hfind : db.find? (fun x => x.id == rid) = some r)
    (howner : r.userId ≠ uid) :
    deleteReminder db uid rid = (DeleteOutcome.unauthorized, db) := by
  simp [deleteReminder, hfind, howner]

theorem delete_reminder_unauthorized_witness :
    deleteReminder [⟨1, 7, Json.str "Aspirin", none, ⟨8, 0, 0, 0, none⟩⟩] 9 1 =
      (DeleteOutcome.unauthorized, [⟨1, 7, Json.str "Aspirin", none, ⟨8, 0, 0, 0, none⟩⟩]) :=
  delete_reminder_unauthorized [⟨1, 7, Json.str "Aspirin", none, ⟨8, 0, 0, 0, none⟩⟩] 9 1
    ⟨1, 7, Json.str "Aspirin", none, ⟨8, 0, 0, 0, none⟩⟩ rfl (by decide)

theorem mem_getReminders (db : List ReminderRow) (uid : Nat) (r : ReminderRow)
    (h : r ∈ getReminders db uid) : r ∈ db ∧ r.userId = uid := by
  have h2 : r ∈ sortLe (fun a b : ReminderRow => timeLexLe a.rtime b.rtime)
      (db.filter (fun x => x.userId == uid)) := h
  have hfilter := (sortLe_perm (fun a b : ReminderRow => timeLexLe a.rtime b.rtime)
    (db.filter (fun x => x.userId == uid))).mem_iff.mp h2
  obtain ⟨hdb, huid⟩ := List.mem_filter.mp hfilter
  exact ⟨hdb, by simpa using huid⟩

/-- C9: Every reminder serialized at the public interface — by
`/api/get_reminders`, and by the `/api/add_reminder` 201 response — carries
a `reminder_time` rendered by `strftime('%I:%M %p')`, a 12-hour clock
string ending in an AM/PM marker. -/
theorem reminders_serialized_12hour :
    (∀ (db : List ReminderRow) (uid : Nat) (d : ReminderDict),
        d ∈ getRemindersJson db uid →
        ∃ r : ReminderRow, r ∈ db ∧ r.userId = uid ∧ d = reminderToDict r ∧
          d.reminderTime = strftime12 r.rtime ∧
          ((∃ p, d.reminderTime = p ++ " AM") ∨ (∃ p, d.reminderTime = p ++ " PM"))) ∧
    (∀ (uid nextId : Nat) (body : Json) (r : ReminderRow),
        addReminder uid nextId body = AddResult.created r →
        (reminderToDict r).reminderTime = strftime12 r.rtime ∧
          ((∃ p, (reminderToDict r).reminderTime = p ++ " AM") ∨
            (∃ p, (reminderToDict r).reminderTime = p ++ " PM"))) := by
  constructor
  · intro db uid d hd
    obtain ⟨r, hrmem, hrd⟩ := List.mem_map.mp hd
    obtain ⟨hrdb, hruid⟩ := mem_getReminders db uid r hrmem
    subst hrd
    exact ⟨r, hrdb, hruid, rfl, rfl, strftime12_ampm r.rtime⟩
  · intro uid nextId body r _
    exact ⟨rfl, strftime12_ampm r.rtime⟩

theorem reminders_serialized_12hour_witness :
    (reminderToDict ⟨1, 7, Json.str "Aspirin", none, ⟨20, 30, 0, 0, none⟩⟩).reminderTime =
        strftime12 (⟨20, 30, 0, 0, none⟩ : PyTime) ∧
      ((∃ p, (reminderToDict ⟨1, 7, Json.str "Aspirin", none, ⟨20, 30, 0, 0, none⟩⟩).reminderTime =
            p ++ " AM") ∨
        (∃ p, (reminderToDict ⟨1, 7, Json.str "Aspirin", none, ⟨20, 30, 0, 0, none⟩⟩).reminderTime =
            p ++ " PM")) :=
  reminders_serialized_12hour.2 7 1
    (Json.obj [("medicine_name", Json.str "Aspirin"), ("reminder_time", Json.str "20:30")])
    ⟨1, 7, Json.str "Aspirin", none, ⟨20, 30, 0, 0, none⟩⟩ rfl

/-- C10: For every user, `/api/get_reminders` yields exactly that user's
reminders (a permutation of the user's rows, every one owned by the user)
in non-decreasing time-of-day order, and the response serializes them in
that order. -/
theorem get_reminders_user_sorted (db : List ReminderRow) (uid : Nat) :
    (getReminders db uid).Perm (db.filter (fun r => r.userId == uid)) ∧
      (∀ r ∈ getReminders db uid, r.userId = uid) ∧
      (getReminders db uid).Pairwise (fun a b => timeLexLe a.rtime b.rtime = true) ∧
      getRemindersJson db uid = (getReminders db uid).map reminderToDict := by
  refine ⟨?_, ?_, ?_, rfl⟩
  · exact sortLe_perm (fun a b : ReminderRow => timeLexLe a.rtime b.rtime)
      (db.filter (fun r => r.userId == uid))
  · intro r hr
    exact (mem_getReminders db uid r hr).2
  · exact sortLe_pairwise (fun a b : ReminderRow => timeLexLe a.rtime b.rtime)
      (fun a b => timeLexLe_total a.rtime b.rtime)
      (fun a b c => timeLexLe_trans a.rtime b.rtime c.rtime)
      (db.filter (fun r => r.userId == uid))

theorem fromisoformat_ne_empty (t : String) (tv : PyTime)
    (h : time_fromisoformat t = some tv) : t ≠ "" := by
  intro heq
  subst heq
  rw [show time_fromisoformat "" = none from rfl] at h
  exact Option.noConfusion h

theorem time_fromisoformat_empty : time_fromisoformat "" = none := rfl

theorem askResult_reminder_ok (r : Option NewReminder) (c : String) :
    (AskResult.ok r c).reminder = r := rfl

/-- The condition under which the sentinel branch persists a reminder:
truthy medicine, and a time value that is a string accepted by
`time.fromisoformat`. -/
theorem askCreate_isSome (kvs : List (String × Json)) :
    ((askCreate kvs).reminder).isSome = true ↔
      (optTruthy (jget kvs "medicine") = true ∧
        ∃ timeStr t, jget kvs "time" = some (Json.str timeStr) ∧
          time_fromisoformat timeStr = some t) := by
  cases hmed : jget kvs "medicine" with
  | none => simp [askCreate, hmed, AskResult.reminder, optTruthy]
  | some med =>
    cases htime : jget kvs "time" with
    | none => simp [askCreate, hmed, htime, AskResult.reminder, optTruthy]
    | some timeVal =>
      by_cases hm : pyTruthy med = true
      · cases timeVal with
        | str timeStr =>
          by_cases hts : timeStr = ""
          · subst hts
            simp [askCreate, hmed, htime, hm, AskResult.reminder, optTruthy, pyTruthy,
              time_fromisoformat_empty]
          · have htrue : pyTruthy (Json.str timeStr) = true := by simp [pyTruthy, hts]
            cases hparse : time_fromisoformat timeStr with
            | none =>
              simp [askCreate, hmed, htime, hm, htrue, hparse, AskResult.reminder, optTruthy]
            | some t =>
              simp [askCreate, hmed, htime, hm, htrue, hparse, AskResult.reminder, optTruthy]
        | null =>
          simp [askCreate, hmed, htime, hm, AskResult.reminder, optTruthy, pyTruthy]
        | bool b =>
          simp [askCreate, hmed, htime, hm, optTruthy, pyTruthy,
            apply_ite AskResult.reminder, askResult_reminder_ok]
        | num lexeme =>
          simp [askCreate, hmed, htime, hm, optTruthy,
            apply_ite AskResult.reminder, askResult_reminder_ok]
        | arr elems =>
          simp [askCreate, hmed, htime, hm, optTruthy,
            apply_ite AskResult.reminder, askResult_reminder_ok]
        | obj members =>
          simp [askCreate, hmed, htime, hm, optTruthy,
            apply_ite AskResult.reminder, askResult_reminder_ok]
      · rw [Bool.not_eq_true] at hm
        constructor
        · intro h
          exfalso
          simp [askCreate, hmed, htime, hm, AskResult.reminder] at h
        · rintro ⟨hmm, -⟩
          rw [optTruthy, hm] at hmm
          exact Bool.noConfusion hmm

/-- The exact condition for the chat pipeline to persist a reminder: the
reply decodes as a JSON object whose `action` is the sentinel
`create_reminder`, whose `medicine` is truthy, and whose `time` is a string
accepted by `time.fromisoformat`. -/
def sentinelOK (aiReply : String) : Prop :=
  ∃ kvs timeStr t,
    json_loads aiReply = some (Json.obj kvs) ∧
    jget kvs "action" = some (Json.str "create_reminder") ∧
    optTruthy (jget kvs "medicine") = true ∧
    jget kvs "time" = some (Json.str timeStr) ∧
    time_fromisoformat timeStr = some t

/-- C1 (amended): For every `/ask` request, a new Reminder is persisted via
the chat pipeline if and only if the AI reply decodes as a JSON object
whose `action` equals the sentinel `create_reminder`, with a truthy
(non-empty) `medicine` field and a `time` field that is a string accepted
by `time.fromisoformat` — a grammar that contains every valid 24-hour
HH:MM string but is strictly larger (e.g. `HH`, `HH:MM:SS`, fractional
seconds, offsets). -/
theorem ask_reminder_iff (aiReply : String) :
    (askReminder aiReply).isSome = true ↔ sentinelOK aiReply := by
  unfold askReminder sentinelOK
  cases hj : json_loads aiReply with
  | none => simp [askBranch, hj, AskResult.reminder]
  | some j =>
    cases j with
    | null => simp [askBranch, hj, AskResult.reminder]
    | bool b => simp [askBranch, hj, AskResult.reminder]
    | num lexeme => simp [askBranch, hj, AskResult.reminder]
    | str s2 => simp [askBranch, hj, AskResult.reminder]
    | arr elems => simp [askBranch, hj, AskResult.reminder]
    | obj kvs =>
      cases hact : jget kvs "action" with
      | none => simp [askBranch, hj, hact, AskResult.reminder]
      | some av =>
        cases av with
        | str a =>
          by_cases ha : a = "create_reminder"
          · subst ha
            have hred : askBranch aiReply = askCreate kvs := by
              unfold askBranch
              rw [hj]
              simp [hact]
            rw [hred, askCreate_isSome]
            simp [hj, hact]
          · simp [askBranch, hj, hact, ha, AskResult.reminder]
        | null => simp [askBranch, hj, hact, AskResult.reminder]
        | bool b => simp [askBranch, hj, hact, AskResult.reminder]
        | num lexeme => simp [askBranch, hj, hact, AskResult.reminder]
        | arr elems => simp [askBranch, hj, hact, AskResult.reminder]
        | obj members => simp [askBranch, hj, hact, AskResult.reminder]

/-- C1 counterexample to the claim as stated: the reply below persists a
reminder although its time field `08:00:00` is not of the 24-hour HH:MM
shape the claim requires. -/
theorem ask_reminder_hhmm_counterexample :
    askReminder "\x7b\"action\": \"create_reminder\", \"medicine\": \"Aspirin\", \"time\": \"08:00:00\"\x7d" =
        some ⟨Json.str "Aspirin", none, ⟨8, 0, 0, 0, none⟩⟩ ∧
      specHHMM "08:00:00" = false :=
  ⟨by rfl, by rfl⟩

theorem askCreate_ne_raised (kvs : List (String × Json)) :
    askCreate kvs ≠ AskResult.raised := by
  unfold askCreate
  dsimp only
  repeat' split
  all_goals simp

/-- C2 (amended): For every AI reply string that does not decode as a
non-object JSON value, the decode/validate/branch step of `/ask` ends in
one of the two ordinary outcomes (a reminder action or conversational
content); in particular, when JSON decoding of the whole reply fails, the
reply text is kept verbatim as the conversational content with no error
surfaced.  (A reply that decodes to a JSON array, string, number, boolean
or null instead raises an uncaught `AttributeError`; see the
counterexample.) -/
theorem ask_branch_outcomes (aiReply : String) :
    (json_loads aiReply = none → askBranch aiReply = AskResult.ok none aiReply) ∧
      (∀ kvs, json_loads aiReply = some (Json.obj kvs) →
        ∃ rem resp, askBranch aiReply = AskResult.ok rem resp) := by
  constructor
  · intro h
    unfold askBranch
    rw [h]
  · intro kvs h
    cases hact : jget kvs "action" with
    | none =>
      refine ⟨none, aiReply, ?_⟩
      unfold askBranch
      rw [h]
      simp [hact]
    | some av =>
      cases av with
      | str a =>
        by_cases ha : a = "create_reminder"
        · subst ha
          cases hres : askCreate kvs with
          | ok r c =>
            refine ⟨r, c, ?_⟩
            unfold askBranch
            rw [h]
            simp [hact, hres]
          | raised => exact absurd hres (askCreate_ne_raised kvs)
        · refine ⟨none, aiReply, ?_⟩
          unfold askBranch
          rw [h]
          simp [hact, ha]
      | null =>
        refine ⟨none, aiReply, ?_⟩
        unfold askBranch
        rw [h]
        simp [hact]
      | bool b =>
        refine ⟨none, aiReply, ?_⟩
        unfold askBranch
        rw [h]
        simp [hact]
      | num lexeme =>
        refine ⟨none, aiReply, ?_⟩
        unfold askBranch
        rw [h]
        simp [hact]
      | arr elems =>
        refine ⟨none, aiReply, ?_⟩
        unfold askBranch
        rw [h]
        simp [hact]
      | obj members =>
        refine ⟨none, aiReply, ?_⟩
        unfold askBranch
        rw [h]
        simp [hact]

theorem ask_branch_outcomes_witness : askBranch "hello" = AskResult.ok none "hello" :=
  (ask_branch_outcomes "hello").1 (by rfl)

/-- C2 counterexample to the claim as stated: replies that decode to a
non-object JSON value (an array, null, or a bare string) make the branch
raise an uncaught `AttributeError` at `data.get('action')` instead of
ending in one of the two outcomes. -/
theorem ask_branch_nonobject_raises :
    askBranch "[1]" = AskResult.raised ∧
      askBranch "null" = AskResult.raised ∧
      askBranch "\"ok\"" = AskResult.raised :=
  ⟨by rfl, by rfl, by rfl⟩

theorem askCreate_some (kvs : List (String × Json)) (r : NewReminder)
    (h : (askCreate kvs).reminder = some r) :
    ∃ timeStr, jget kvs "time" = some (Json.str timeStr) ∧
      time_fromisoformat timeStr = some r.rtime := by
  cases hmed : jget kvs "medicine" with
  | none => simp [askCreate, hmed, AskResult.reminder] at h
  | some med =>
    cases htime : jget kvs "time" with
    | none => simp [askCreate, hmed, htime, AskResult.reminder] at h
    | some timeVal =>
      by_cases hb : (pyTruthy med && pyTruthy timeVal) = true
      · cases timeVal with
        | str ts =>
          cases hp : time_fromisoformat ts with
          | none => simp [askCreate, hmed, htime, hb, hp, AskResult.reminder] at h
          | some t =>
            refine ⟨ts, rfl, ?_⟩
            simp [askCreate, hmed, htime, hb, hp, AskResult.reminder] at h
            subst h
            exact hp
        | null => simp [askCreate, hmed, htime, hb, AskResult.reminder] at h
        | bool b => simp [askCreate, hmed, htime, hb, AskResult.reminder] at h
        | num lexeme => simp [askCreate, hmed, htime, hb, AskResult.reminder] at h
        | arr elems => simp [askCreate, hmed, htime, hb, AskResult.reminder] at h
        | obj members => simp [askCreate, hmed, htime, hb, AskResult.reminder] at h
      · simp [askCreate, hmed, htime, hb, AskResult.reminder] at h

/-- C3 (amended): Every Reminder row ever persisted — through the chat
pipeline or through `/api/add_reminder` — got its time-of-day from a source
string accepted by `time.fromisoformat` (a grammar that contains every
valid 24-hour HH:MM string but is strictly larger); a string that parser
rejects is never accepted by either creation path. -/
theorem reminder_time_source_validated :
    (∀ (aiReply : String) (r : NewReminder), askReminder aiReply = some r →
        ∃ kvs timeStr, json_loads aiReply = some (Json.obj kvs) ∧
          jget kvs "time" = some (Json.str timeStr) ∧
          time_fromisoformat timeStr = some r.rtime) ∧
      (∀ (uid nextId : Nat) (body : Json) (r : ReminderRow),
        addReminder uid nextId body = AddResult.created r →
        ∃ kvs timeStr, body = Json.obj kvs ∧
          jget kvs "reminder_time" = some (Json.str timeStr) ∧
          time_fromisoformat timeStr = some r.rtime) := by
  constructor
  · intro aiReply r h
    cases hj : json_loads aiReply with
    | none =>
      unfold askReminder askBranch at h
      rw [hj] at h
      simp [AskResult.reminder] at h
    | some j =>
      cases j with
      | obj kvs =>
        cases hact : jget kvs "action" with
        | none =>
          unfold askReminder askBranch at h
          rw [hj] at h
          simp [hact, AskResult.reminder] at h
        | some av =>
          cases av with
          | str a =>
            by_cases ha : a = "create_reminder"
            · subst ha
              have hred : askBranch aiReply = askCreate kvs := by
                unfold askBranch
                rw [hj]
                simp [hact]
              unfold askReminder at h
              rw [hred] at h
              obtain ⟨ts, hts, hp⟩ := askCreate_some kvs r h
              exact ⟨kvs, ts, rfl, hts, hp⟩
            · unfold askReminder askBranch at h
              rw [hj] at h
              simp [hact, ha, AskResult.reminder] at h
          | null =>
            unfold askReminder askBranch at h
            rw [hj] at h
            simp [hact, AskResult.reminder] at h
          | bool b =>
            unfold askReminder askBranch at h
            rw [hj] at h
            simp [hact, AskResult.reminder] at h
          | num lexeme =>
            unfold askReminder askBranch at h
            rw [hj] at h
            simp [hact, AskResult.reminder] at h
          | arr elems =>
            unfold askReminder askBranch at h
            rw [hj] at h
            simp [hact, AskResult.reminder] at h
          | obj members =>
            unfold askReminder askBranch at h
            rw [hj] at h
            simp [hact, AskResult.reminder] at h
      | null =>
        unfold askReminder askBranch at h
        rw [hj] at h
        simp [AskResult.reminder] at h
      | bool b =>
        unfold askReminder askBranch at h
        rw [hj] at h
        simp [AskResult.reminder] at h
      | num lexeme =>
        unfold askReminder askBranch at h
        rw [hj] at h
        simp [AskResult.reminder] at h
      | str s2 =>
        unfold askReminder askBranch at h
        rw [hj] at h
        simp [AskResult.reminder] at h
      | arr elems =>
        unfold askReminder askBranch at h
        rw [hj] at h
        simp [AskResult.reminder] at h
  · intro uid nextId body r h
    cases body with
    | obj kvs =>
      cases hmed : jget kvs "medicine_name" with
      | none => simp [addReminder, hmed] at h
      | some med =>
        cases htime : jget kvs "reminder_time" with
        | none => simp [addReminder, hmed, htime] at h
        | some timeVal =>
          by_cases hb : (pyTruthy med && pyTruthy timeVal) = true
          · cases timeVal with
            | str ts =>
              cases hp : time_fromisoformat ts with
              | none => simp [addReminder, hmed, htime, hb, hp] at h
              | some t =>
                refine ⟨kvs, ts, rfl, htime, ?_⟩
                simp [addReminder, hmed, htime, hb, hp] at h
                subst h
                exact hp
            | null => simp [addReminder, hmed, htime, hb] at h
            | bool b => simp [addReminder, hmed, htime, hb] at h
            | num lexeme => simp [addReminder, hmed, htime, hb] at h
            | arr elems => simp [addReminder, hmed, htime, hb] at h
            | obj members => simp [addReminder, hmed, htime, hb] at h
          · simp [addReminder, hmed, htime, hb] at h
    | null => simp [addReminder] at h
    | bool b => simp [addReminder] at h
    | num lexeme => simp [addReminder] at h
    | str s2 => simp [addReminder] at h
    | arr elems => simp [addReminder] at h

theorem reminder_time_source_validated_witness :
    ∃ kvs timeStr,
      (Json.obj [("medicine_name", Json.str "Aspirin"), ("reminder_time", Json.str "07:45")]) =
          Json.obj kvs ∧
        jget kvs "reminder_time" = some (Json.str timeStr) ∧
        time_fromisoformat timeStr =
          some (⟨1, 7, Json.str "Aspirin", none, ⟨7, 45, 0, 0, none⟩⟩ : ReminderRow).rtime :=
  reminder_time_source_validated.2 7 1
    (Json.obj [("medicine_name", Json.str "Aspirin"), ("reminder_time", Json.str "07:45")])
    ⟨1, 7, Json.str "Aspirin", none, ⟨7, 45, 0, 0, none⟩⟩ (by rfl)

/-- C3 counterexample to the claim as stated: `/api/add_reminder` accepts
the time string `08:00:00`, which is not of the 24-hour HH:MM shape, and
persists a row from it. -/
theorem add_reminder_non_hhmm_accepted :
    addReminder 7 1 (Json.obj [("medicine_name", Json.str "Aspirin"),
        ("reminder_time", Json.str "08:00:00")]) =
      AddResult.created ⟨1, 7, Json.str "Aspirin", none, ⟨8, 0, 0, 0, none⟩⟩ ∧
      specHHMM "08:00:00" = false :=
  ⟨by rfl, by rfl⟩

/-- C4 (amended): For every `/ask` request where the AI reply decodes as
the sentinel JSON object and its `time` value is a string that does not
validate, no Reminder is persisted and the stored assistant message is one
of the two clarification messages asking the user to restate the details
(the missing-details one when the medicine or the time is falsy, the
could-not-understand-the-time one otherwise).  (A truthy non-string `time`
value instead yields the trouble-saving apology; see the counterexample.) -/
theorem malformed_time_string_clarifies (aiReply : String)
    (kvs : List (String × Json)) (timeStr : String)
    (hj : json_loads aiReply = some (Json.obj kvs))
    (hact : jget kvs "action" = some (Json.str "create_reminder"))
    (htime : jget kvs "time" = some (Json.str timeStr))
    (hbad : time_fromisoformat timeStr = none) :
    askBranch aiReply = AskResult.ok none missingDetailsMsg ∨
      askBranch aiReply = AskResult.ok none (timeClarMsg timeStr) := by
  have hred : askBranch aiReply = askCreate kvs := by
    unfold askBranch
    rw [hj]
    simp [hact]
  rw [hred]
  cases hmed : jget kvs "medicine" with
  | none =>
    left
    simp [askCreate, hmed, htime]
  | some med =>
    by_cases hm : pyTruthy med = true
    · by_cases hts : pyTruthy (Json.str timeStr) = true
      · right
        simp [askCreate, hmed, htime, hm, hts, hbad]
      · left
        rw [Bool.not_eq_true] at hts
        simp [askCreate, hmed, htime, hm, hts]
    · left
      rw [Bool.not_eq_true] at hm
      simp [askCreate, hmed, htime, hm]

theorem malformed_time_string_clarifies_witness :
    askBranch "\x7b\"action\": \"create_reminder\", \"medicine\": \"Aspirin\", \"time\": \"8pm\"\x7d" =
        AskResult.ok none missingDetailsMsg ∨
      askBranch "\x7b\"action\": \"create_reminder\", \"medicine\": \"Aspirin\", \"time\": \"8pm\"\x7d" =
        AskResult.ok none (timeClarMsg "8pm") :=
  malformed_time_string_clarifies
    "\x7b\"action\": \"create_reminder\", \"medicine\": \"Aspirin\", \"time\": \"8pm\"\x7d"
    [("action", Json.str "create_reminder"), ("medicine", Json.str "Aspirin"),
      ("time", Json.str "8pm")]
    "8pm" (by rfl) (by rfl) (by rfl) (by rfl)

/-- C4 counterexample to the claim as stated: a sentinel reply whose `time`
value is the number 800 (malformed, not validating) makes the handler store
the trouble-saving apology — `time.fromisoformat` raises `TypeError`,
caught by the blanket `except Exception` — which is not a clarification
asking the user to restate the details. -/
theorem nonstring_time_apology :
    askBranch "\x7b\"action\": \"create_reminder\", \"medicine\": \"Aspirin\", \"time\": 800\x7d" =
        AskResult.ok none troubleSavingMsg ∧
      troubleSavingMsg ≠ missingDetailsMsg ∧
      troubleSavingMsg ≠ timeClarMsg "800" :=
  ⟨by rfl, by decide, by decide⟩
